import Mathlib

/-!
Verification of the OpenSearch backend store
(`pkg/search/backendstore/opensearch.go`) of the karmada search layer.

The Go file is shallowly embedded below: pure computations become Lean
functions, the mutable `OpenSearch` struct becomes an explicit state value
threaded through the operations, and every network interaction (the
create-index call, the document write, the document delete, client
construction) is abstracted as an oracle argument describing the backend's
response; the operations return, besides the successor state, a record of
exactly which backend calls they issued and with which payloads.
-/

namespace Backendstore

/-- Character-list prefix test, the helper for substring containment. -/
def listHasPre : List Char → List Char → Bool
  | _, [] => true
  | [], _ :: _ => false
  | a :: s, b :: p => a == b && listHasPre s p

/-- Character-list substring containment. -/
def listHasSub : List Char → List Char → Bool
  | [], p => listHasPre [] p
  | s@(_ :: t), p => listHasPre s p || listHasSub t p

/-- Model of Go `strings.Contains s pat`. -/
def strContains (s pat : String) : Bool :=
  listHasSub s.data pat.data

/-- Model of Go `strings.ToLower` (ASCII kinds only appear here). -/
def strToLower (s : String) : String :=
  String.mk (s.data.map Char.toLower)

/-- `var defaultPrefix = "kubernetes"` from the source. -/
def defaultPrefix : String := "kubernetes"

/-- Modelled from the spec: `clusterv1alpha1.CacheSourceAnnotationKey`, the
provenance annotation key defined in the cluster API package, which is not
under `src/`; the spec calls it the source-cluster provenance key
(`cache.karmada.io/source-cluster...`). Its concrete text is irrelevant to
the claims; only its identity as one fixed key matters. -/
def CacheSourceAnnotationKey : String := "cache.karmada.io/source-cluster"

/-- A Go `map[string]string`, as an association list (lookup by first key
occurrence, mirroring map semantics through `mapSet`/`List.lookup`). -/
abbrev StrMap := List (String × String)

/-- Go map assignment `m[k] = v`: replace any existing binding for `k`. -/
def mapSet (m : StrMap) (k v : String) : StrMap :=
  (k, v) :: m.filter (fun p => p.1 ≠ k)

/-- Model of an arbitrary Go `interface{}` stored in unstructured content,
as far as `encoding/json` serialization is concerned: a missing key yields
the nil interface (`null`), any JSON-representable value is kept by its
serialization, and some values (NaN floats, channels, ...) are rejected by
`json.Marshal`. -/
inductive GoValue
  | null
  | jsonText (s : String)
  | unsupported (desc : String)
deriving DecidableEq, Repr

/-- Model of Go `json.Marshal`: `Marshal(nil)` yields the text `"null"`;
on an unsupported value it returns a nil byte slice and an error. -/
def jsonMarshal : GoValue → Except String String
  | .null => .ok "null"
  | .jsonText s => .ok s
  | .unsupported d => .error ("json: unsupported type: " ++ d)

/-- Go map indexing `us.Object[key]` for a possibly absent key: an absent
key reads as the nil interface value. -/
def goLookup : Option GoValue → GoValue
  | none => .null
  | some g => g

/-- `*unstructured.Unstructured`: the generic resource object, restricted
to the accessors the embedded code uses. `annotations = none` models a nil
annotation map; `spec`/`status` model `us.Object["spec"]`/`["status"]`
(`none` = key absent). `creationTimestamp` carries the already
RFC3339-formatted text; `deletionTimestamp` the optional `*metav1.Time`. -/
structure Unstructured where
  apiVersion : String
  kind : String
  name : String
  nspace : String
  uid : String
  creationTimestamp : String
  deletionTimestamp : Option String
  labels : Option StrMap
  annotations : Option StrMap
  spec : Option GoValue
  status : Option GoValue
deriving DecidableEq, Repr

/-- `us.GetAnnotations()`: nil or the map. -/
def Unstructured.getAnnotations (u : Unstructured) : Option StrMap :=
  u.annotations

/-- The `metadata` sub-object of the document built by `upsert`. -/
structure Metadata where
  name : String
  nspace : String
  creationTimestamp : String
  labels : Option StrMap
  annotations : StrMap
  deletionTimestamp : Option String
deriving DecidableEq, Repr

/-- The normalized document `upsert` builds and marshals as the body. -/
structure Document where
  apiVersion : String
  kind : String
  metadata : Metadata
  spec : String
  status : String
deriving DecidableEq, Repr

/-- `spec, _ := json.Marshal(us.Object[k]); doc[k] = string(spec)`:
best-effort serialization of one opaque payload section; on a Marshal
error the ignored-error pattern leaves a nil slice, i.e. empty text. -/
def marshalSection (v : Option GoValue) : String :=
  match jsonMarshal (goLookup v) with
  | .ok s => s
  | .error _ => ""

/-- The `OpenSearch` struct: source-cluster identifier and the memo of
known index names (`indices map[string]struct{}`, as a list used as a
set). The network client and the mutex are not part of the pure state:
calls are modelled by oracles and each operation is one critical section. -/
structure OpenSearch where
  cluster : String
  indices : List String
deriving DecidableEq, Repr

/-- The backend's answer to one `IndicesCreateRequest.Do` call:
`err` is the transport-level error (`err != nil` in Go), `isError` is
`resp.IsError()` when the call returned, `body` is `resp.String()`. -/
structure CreateResponse where
  err : Option String
  isError : Bool
  body : String
deriving DecidableEq, Repr

/-- Result of `OpenSearch.indexName`: the computed name, the returned
error, the successor state, and whether a create-index call was issued. -/
structure IndexNameResult where
  name : String
  err : Option String
  st : OpenSearch
  createCalled : Bool
deriving DecidableEq, Repr

/-- The deterministic collection name
`fmt.Sprintf("%s-%s", defaultPrefix, strings.ToLower(us.GetKind()))`. -/
def indexNameOf (us : Unstructured) : String :=
  defaultPrefix ++ "-" ++ strToLower us.kind

/-- `OpenSearch.indexName`, translated line by line. Note the guard is the
source's `if _, ok := os.indices[name]; !ok { return name, nil }`: the
early return fires when the name is NOT in the memo, and the creation path
below it runs only when the name already is. -/
def OpenSearch.indexName (os : OpenSearch) (backend : String → CreateResponse)
    (us : Unstructured) : IndexNameResult :=
  let name := indexNameOf us
  if ¬ os.indices.contains name then
    ⟨name, none, os, false⟩
  else
    let resp := backend name
    match resp.err with
    | some e =>
        if strContains e "already exists" then
          ⟨name, none, { os with indices := name :: os.indices }, true⟩
        else
          ⟨name, some ("cannot create index: " ++ e), os, true⟩
    | none =>
        if resp.isError then
          ⟨name, some ("cannot create index: " ++ resp.body), os, true⟩
        else
          ⟨name, none, { os with indices := name :: os.indices }, true⟩

/-- An `interface{}` event payload: either the expected generic object or
a value of some other dynamic type (the failing type assertion case). -/
inductive EventObj
  | us (u : Unstructured)
  | other (typeName : String)
deriving DecidableEq, Repr

/-- Result of `OpenSearch.upsert`: successor state, the document it built
(none when the event was dropped), the issued write call as
(index, documentID, document payload) if any, whether a create-index call
was issued, and the collection-resolution error if resolution failed. -/
structure UpsertResult where
  st : OpenSearch
  doc : Option Document
  writeCall : Option (String × String × Document)
  createCalled : Bool
  resolveErr : Option String
deriving DecidableEq, Repr

/-- `OpenSearch.upsert`, translated line by line: type-assert, deep-copy,
ensure an annotation map, inject the provenance annotation, build the
document, best-effort serialize spec/status, resolve the index, and issue
the write keyed by the object's UID unless resolution failed. -/
def OpenSearch.upsert (os : OpenSearch) (backend : String → CreateResponse)
    (obj : EventObj) : UpsertResult :=
  match obj with
  | .other _ => ⟨os, none, none, false, none⟩
  | .us u₀ =>
      let u := u₀
      let anns := match u.getAnnotations with
        | none => ([] : StrMap)
        | some m => m
      let anns := mapSet anns CacheSourceAnnotationKey os.cluster
      let u := { u with annotations := some anns }
      let doc : Document :=
        { apiVersion := u.apiVersion
          kind := u.kind
          metadata :=
            { name := u.name
              nspace := u.nspace
              creationTimestamp := u.creationTimestamp
              labels := u.labels
              annotations := anns
              deletionTimestamp := u.deletionTimestamp }
          spec := marshalSection u.spec
          status := marshalSection u.status }
      let r := os.indexName backend u
      match r.err with
      | some e => ⟨r.st, some doc, none, r.createCalled, some e⟩
      | none => ⟨r.st, some doc, some (r.name, u.uid, doc), r.createCalled, none⟩

/-- Result of `OpenSearch.delete`: successor state, the issued delete call
as (index, documentID) if any, and whether a create-index call was issued
during resolution. -/
structure DeleteResult where
  st : OpenSearch
  deleteCall : Option (String × String)
  createCalled : Bool
deriving DecidableEq, Repr

/-- `OpenSearch.delete`, translated line by line: type-assert, resolve the
index by the same naming function, abort on a resolution error, otherwise
issue the delete keyed by the object's UID. -/
def OpenSearch.delete (os : OpenSearch) (backend : String → CreateResponse)
    (obj : EventObj) : DeleteResult :=
  match obj with
  | .other _ => ⟨os, none, false⟩
  | .us u =>
      let r := os.indexName backend u
      match r.err with
      | some _ => ⟨r.st, none, r.createCalled⟩
      | none => ⟨r.st, some (r.name, u.uid), r.createCalled⟩

/-- `clusterv1alpha1.LocalSecretReference`. -/
structure LocalSecretReference where
  nspace : String
  name : String
deriving DecidableEq, Repr

/-- The `OpenSearch` section of `v1alpha1.BackendStoreConfig`. -/
structure OpenSearchConfig where
  addresses : List String
  secretRef : LocalSecretReference
deriving DecidableEq, Repr

/-- `*v1alpha1.BackendStoreConfig`; the surrounding `Option` models the
nil pointer. -/
structure BackendStoreConfig where
  openSearch : Option OpenSearchConfig
deriving DecidableEq, Repr

/-- Oracles for `initClient`'s external calls: the secret store lookup
(returning the username/password pair or an error), `opensearch.NewClient`
and `client.Info()` (their error, if any). -/
structure InitEnv where
  secretData : String → String → Except String (String × String)
  newClientErr : Option String
  infoErr : Option String

/-- `OpenSearch.initClient`, translated line by line: nil-config and
empty-address validation, best-effort credential resolution (failure or an
unset reference degrades to unauthenticated access, never an error), then
client construction and the connectivity probe. -/
def initClient (bsc : Option BackendStoreConfig) (env : InitEnv) :
    Except String Unit :=
  match bsc with
  | none => .error "opensearch config is nil"
  | some cfg =>
      match cfg.openSearch with
      | none => .error "opensearch config is nil"
      | some osc =>
          if osc.addresses.length = 0 then
            .error "not found opensearch address"
          else
            let _userPwd : String × String :=
              if osc.secretRef.nspace = "" ∨ osc.secretRef.name = "" then
                ("", "")
              else
                match env.secretData osc.secretRef.nspace osc.secretRef.name with
                | .error _ => ("", "")
                | .ok p => p
            match env.newClientErr with
            | some e => .error ("cannot create opensearch client: " ++ e)
            | none =>
                match env.infoErr with
                | some e => .error ("cannot get opensearch info: " ++ e)
                | none => .ok ()

/-- `NewOpenSearch`: allocate the store with an empty memo, run
`initClient`, and return nil plus an error if it fails. -/
def NewOpenSearch (cluster : String) (cfg : Option BackendStoreConfig)
    (env : InitEnv) : Except String OpenSearch :=
  match initClient cfg env with
  | .error e => .error ("cannot init client: " ++ e)
  | .ok _ => .ok { cluster := cluster, indices := [] }

/-! ## Concrete fixtures -/

/-- The spec's scenario object `{kind: "Pod", uid: "u1", name: "p1",
namespace: "ns1"}`, with no annotations, labels, spec or status. -/
def podObj : Unstructured :=
  { apiVersion := "v1"
    kind := "Pod"
    name := "p1"
    nspace := "ns1"
    uid := "u1"
    creationTimestamp := "2024-01-01T00:00:00Z"
    deletionTimestamp := none
    labels := none
    annotations := none
    spec := none
    status := none }

/-- A freshly constructed store for cluster `member-a`: empty memo. -/
def freshOS : OpenSearch := { cluster := "member-a", indices := [] }

/-- A store whose memo already holds `kubernetes-pod`. -/
def seenOS : OpenSearch := { cluster := "member-a", indices := ["kubernetes-pod"] }

/-- A backend whose create-index call always succeeds. -/
def okBackend : String → CreateResponse := fun _ => ⟨none, false, "created"⟩

/-- A backend whose create-index call always fails at the transport level
with an "already exists" error message. -/
def existsBackend : String → CreateResponse :=
  fun _ => ⟨some "index kubernetes-pod already exists", false, ""⟩

/-- A backend whose create-index call always fails at the transport level
with an unrelated error message. -/
def downBackend : String → CreateResponse := fun _ => ⟨some "connection refused", false, ""⟩

/-! ## Claim theorems -/

/-- C1: the claim says that for a kind whose collection name is not yet in
the memo, `indexName` issues a create-with-schema call, memoizes the name
on success, and hence the first upsert of a new kind causes exactly one
collection-creation call. The code does the opposite: its guard
`if _, ok := os.indices[name]; !ok { return name, nil }` returns early
exactly when the name is unknown, so on a fresh instance no create call is
ever issued and the memo is never updated — evaluated here at the failing
input (fresh store, kind `Pod`), for every backend. -/
theorem c1_fresh_kind_issues_no_create_call (backend : String → CreateResponse) :
    (freshOS.indexName backend podObj).createCalled = false ∧
    (freshOS.indexName backend podObj).st = freshOS ∧
    (freshOS.indexName backend podObj).err = none ∧
    (freshOS.upsert backend (.us podObj)).createCalled = false ∧
    (freshOS.upsert backend (.us podObj)).st = freshOS :=
  ⟨rfl, rfl, rfl, rfl, rfl⟩

/-- C4: the document built by `upsert` always carries the provenance
annotation mapped to the store's source-cluster identifier, for every
object (also one with a nil annotation map) and every cluster. -/
theorem c4_provenance_equals_cluster (os : OpenSearch)
    (backend : String → CreateResponse) (u : Unstructured) :
    ((os.upsert backend (.us u)).doc.map
      (fun d => d.metadata.annotations.lookup CacheSourceAnnotationKey)) =
      some (some os.cluster) := by
  have hlook : ∀ (m : StrMap) (k v : String), (mapSet m k v).lookup k = some v := by
    intro m k v
    simp [mapSet, List.lookup]
  unfold OpenSearch.upsert
  cases h : (os.indexName backend
      { u with annotations := some (mapSet
          (match u.getAnnotations with | none => [] | some m => m)
          CacheSourceAnnotationKey os.cluster) }).err <;>
    simp [h, hlook]

/-- C7: an event payload that is not the expected generic object type is
dropped by both `upsert` and `delete`: no backend call, no document, no
state (memo) change; totality of the model shows absence of panics. -/
theorem c7_wrong_type_dropped (os : OpenSearch)
    (backend : String → CreateResponse) (t : String) :
    os.upsert backend (.other t) = ⟨os, none, none, false, none⟩ ∧
    os.delete backend (.other t) = ⟨os, none, false⟩ :=
  ⟨rfl, rfl⟩

/-- C2: whenever `indexName` actually issues the create-index call and the
backend fails it with a transport error whose message contains
"already exists", the operation treats this as success: it returns a nil
error and the name is recorded in the memo. -/
theorem c2_already_exists_treated_as_success (os : OpenSearch)
    (backend : String → CreateResponse) (us : Unstructured) (e : String)
    (hcall : (os.indexName backend us).createCalled = true)
    (herr : (backend (indexNameOf us)).err = some e)
    (hsub : strContains e "already exists" = true) :
    (os.indexName backend us).err = none ∧
    indexNameOf us ∈ (os.indexName backend us).st.indices := by
  unfold OpenSearch.indexName at *
  by_cases hc : indexNameOf us ∈ os.indices
  · simp [hc, herr, hsub]
  · simp [hc] at hcall

/-- C2 witness: a store whose memo holds `kubernetes-pod` (the only way
the source reaches the create call), a backend answering "already exists",
and the `Pod` object. -/
theorem c2_witness :
    (seenOS.indexName existsBackend podObj).err = none ∧
    indexNameOf podObj ∈ (seenOS.indexName existsBackend podObj).st.indices :=
  c2_already_exists_treated_as_success seenOS existsBackend podObj
    "index kubernetes-pod already exists" (by decide) (by decide) (by decide)

/-- C3: a create-index failure other than "already exists" — a transport
error without that message, or an error-classed response — makes
`indexName` return a non-nil error with the memo unchanged; and whenever
`upsert`'s collection resolution returns an error, `upsert` issues no
document-write call. -/
theorem c3_other_create_failure_errors_and_upsert_aborts :
    (∀ (os : OpenSearch) (backend : String → CreateResponse) (us : Unstructured),
      (os.indexName backend us).createCalled = true →
      ((∀ e : String, (backend (indexNameOf us)).err = some e →
          strContains e "already exists" = false →
          (os.indexName backend us).err ≠ none ∧
          (os.indexName backend us).st = os) ∧
        ((backend (indexNameOf us)).err = none →
          (backend (indexNameOf us)).isError = true →
          (os.indexName backend us).err ≠ none ∧
          (os.indexName backend us).st = os))) ∧
    (∀ (os : OpenSearch) (backend : String → CreateResponse) (obj : EventObj),
      (os.upsert backend obj).resolveErr ≠ none →
      (os.upsert backend obj).writeCall = none) := by
  constructor
  · intro os backend us hcall
    unfold OpenSearch.indexName at *
    by_cases hc : indexNameOf us ∈ os.indices
    · constructor
      · intro e herr hne
        simp [hc, herr, hne]
      · intro herr hresp
        simp [hc, herr, hresp]
    · simp [hc] at hcall
  · intro os backend obj
    cases obj with
    | other t => intro h; rfl
    | us u =>
        unfold OpenSearch.upsert
        cases h : (os.indexName backend
            { u with annotations := some (mapSet
                (match u.getAnnotations with | none => [] | some m => m)
                CacheSourceAnnotationKey os.cluster) }).err <;> simp [h]

/-- C3 witness: a memoized name with an unreachable backend gives a
non-nil error and an unchanged memo, and the corresponding upsert issues
no write call. -/
theorem c3_witness :
    ((seenOS.indexName downBackend podObj).err ≠ none ∧
      (seenOS.indexName downBackend podObj).st = seenOS) ∧
    (seenOS.upsert downBackend (.us podObj)).writeCall = none :=
  ⟨(c3_other_create_failure_errors_and_upsert_aborts.1 seenOS downBackend podObj
      (by decide)).1 "connection refused" (by decide) (by decide),
    c3_other_create_failure_errors_and_upsert_aborts.2 seenOS downBackend
      (.us podObj) (by decide)⟩

/-- An object whose `spec` section is a value `json.Marshal` rejects. -/
def badSpecObj : Unstructured :=
  { podObj with spec := some (.unsupported "chan int"), status := some (.jsonText "42") }

/-- An object whose `status` section is a value `json.Marshal` rejects. -/
def badStatusObj : Unstructured :=
  { podObj with spec := some (.jsonText "7"), status := some (.unsupported "func()") }

/-- Helper: the spec/status fields of the document `upsert` builds are the
best-effort serializations of the object's two payload sections, on every
path of the function. -/
theorem upsert_doc_sections (os : OpenSearch) (backend : String → CreateResponse)
    (u : Unstructured) :
    (os.upsert backend (.us u)).doc.map Document.spec = some (marshalSection u.spec) ∧
    (os.upsert backend (.us u)).doc.map Document.status = some (marshalSection u.status) := by
  unfold OpenSearch.upsert
  cases h : (os.indexName backend
      { u with annotations := some (mapSet
          (match u.getAnnotations with | none => [] | some m => m)
          CacheSourceAnnotationKey os.cluster) }).err <;>
    simp [h]

/-- C5 counterexample: the claim says an object with no `spec` and no
`status` section yields a document whose `spec`/`status` fields are empty
text; on the `Pod` scenario object (both sections absent) the code stores
the four-character text `"null"` (Go's `json.Marshal(nil)`), not empty
text. -/
theorem c5_counterexample_null_not_empty :
    podObj.spec = none ∧ podObj.status = none ∧
    (freshOS.upsert okBackend (.us podObj)).doc.map Document.spec ≠ some "" ∧
    (freshOS.upsert okBackend (.us podObj)).doc.map Document.spec = some "null" ∧
    (freshOS.upsert okBackend (.us podObj)).doc.map Document.status = some "null" := by
  refine ⟨rfl, rfl, ?_, rfl, rfl⟩
  decide

/-- C5 amended: for an object with no `spec` and no `status` section, the
document's `spec` and `status` fields both hold the text `"null"` (the
JSON serialization of an absent value), not empty text; and a failure to
serialize one of the two sections does not abort the other — the failing
section yields empty text while the other still holds its own best-effort
serialization. -/
theorem c5_amended_null_text_and_independence :
    (∀ (os : OpenSearch) (backend : String → CreateResponse) (u : Unstructured),
      u.spec = none → u.status = none →
      (os.upsert backend (.us u)).doc.map Document.spec = some "null" ∧
      (os.upsert backend (.us u)).doc.map Document.status = some "null") ∧
    (∀ (os : OpenSearch) (backend : String → CreateResponse) (u : Unstructured)
        (e : String), jsonMarshal (goLookup u.spec) = .error e →
      (os.upsert backend (.us u)).doc.map Document.spec = some "" ∧
      (os.upsert backend (.us u)).doc.map Document.status =
        some (marshalSection u.status)) ∧
    (∀ (os : OpenSearch) (backend : String → CreateResponse) (u : Unstructured)
        (e : String), jsonMarshal (goLookup u.status) = .error e →
      (os.upsert backend (.us u)).doc.map Document.status = some "" ∧
      (os.upsert backend (.us u)).doc.map Document.spec =
        some (marshalSection u.spec)) := by
  refine ⟨?_, ?_, ?_⟩
  · intro os backend u hs ht
    have h := upsert_doc_sections os backend u
    rw [hs, ht] at h
    exact h
  · intro os backend u e he
    have h := upsert_doc_sections os backend u
    have hs : marshalSection u.spec = "" := by simp [marshalSection, he]
    rw [hs] at h
    exact ⟨h.1, h.2⟩
  · intro os backend u e he
    have h := upsert_doc_sections os backend u
    have ht : marshalSection u.status = "" := by simp [marshalSection, he]
    rw [ht] at h
    exact ⟨h.2, h.1⟩

/-- C5 amended witness: evaluated on the spec's `Pod` object (both
sections absent) and on objects with one unserializable section each. -/
theorem c5_witness :
    ((freshOS.upsert okBackend (.us podObj)).doc.map Document.spec = some "null" ∧
      (freshOS.upsert okBackend (.us podObj)).doc.map Document.status = some "null") ∧
    ((freshOS.upsert okBackend (.us badSpecObj)).doc.map Document.spec = some "" ∧
      (freshOS.upsert okBackend (.us badSpecObj)).doc.map Document.status =
        some (marshalSection badSpecObj.status)) ∧
    ((freshOS.upsert okBackend (.us badStatusObj)).doc.map Document.status = some "" ∧
      (freshOS.upsert okBackend (.us badStatusObj)).doc.map Document.spec =
        some (marshalSection badStatusObj.spec)) :=
  ⟨c5_amended_null_text_and_independence.1 freshOS okBackend podObj rfl rfl,
    c5_amended_null_text_and_independence.2.1 freshOS okBackend badSpecObj
      "json: unsupported type: chan int" rfl,
    c5_amended_null_text_and_independence.2.2 freshOS okBackend badStatusObj
      "json: unsupported type: func()" rfl⟩

/-- Helper: `indexName` returns the deterministic name on every path. -/
theorem indexName_name_eq (os : OpenSearch) (backend : String → CreateResponse)
    (us : Unstructured) : (os.indexName backend us).name = indexNameOf us := by
  unfold OpenSearch.indexName
  by_cases hc : indexNameOf us ∈ os.indices
  · cases herr : (backend (indexNameOf us)).err with
    | none =>
        by_cases hie : (backend (indexNameOf us)).isError <;> simp [hc, herr, hie]
    | some e =>
        by_cases hsub : strContains e "already exists" = true <;> simp [hc, herr, hsub]
  · simp [hc]

/-- C6: the collection name is the fixed prefix `kubernetes`, a hyphen,
and the lower-cased kind; `upsert`'s write call and `delete`'s delete call
target exactly that name (both via the same naming function); kind `Pod`
maps to `kubernetes-pod`; and the name depends only on the kind. -/
theorem c6_collection_naming :
    (∀ u : Unstructured, indexNameOf u = "kubernetes" ++ "-" ++ strToLower u.kind) ∧
    (∀ (os : OpenSearch) (backend : String → CreateResponse) (u : Unstructured),
      (os.indexName backend u).name = indexNameOf u) ∧
    (∀ (os : OpenSearch) (backend : String → CreateResponse) (u : Unstructured)
        (w : String × String × Document),
      (os.upsert backend (.us u)).writeCall = some w → w.1 = indexNameOf u) ∧
    (∀ (os : OpenSearch) (backend : String → CreateResponse) (u : Unstructured)
        (c : String × String),
      (os.delete backend (.us u)).deleteCall = some c → c.1 = indexNameOf u) ∧
    indexNameOf podObj = "kubernetes-pod" ∧
    (∀ u v : Unstructured, u.kind = v.kind → indexNameOf u = indexNameOf v) := by
  refine ⟨fun u => rfl, indexName_name_eq, ?_, ?_, by decide, ?_⟩
  · intro os backend u w hw
    unfold OpenSearch.upsert at hw
    cases h : (os.indexName backend
        { u with annotations := some (mapSet
            (match u.getAnnotations with | none => [] | some m => m)
            CacheSourceAnnotationKey os.cluster) }).err with
    | some e => simp [h] at hw
    | none =>
        simp [h] at hw
        rw [← hw]
        exact indexName_name_eq os backend _
  · intro os backend u c hc
    unfold OpenSearch.delete at hc
    cases h : (os.indexName backend u).err with
    | some e => simp [h] at hc
    | none =>
        simp [h] at hc
        rw [← hc]
        exact indexName_name_eq os backend u
  · intro u v h
    simp [indexNameOf, h]

/-- C6 witness: the `Pod` scenario object on a fresh store: the issued
write and delete calls target `kubernetes-pod`. -/
theorem c6_witness :
    (freshOS.indexName okBackend podObj).name = indexNameOf podObj ∧
    ("kubernetes-pod", "u1",
      ({ apiVersion := "v1", kind := "Pod",
         metadata :=
           { name := "p1", nspace := "ns1",
             creationTimestamp := "2024-01-01T00:00:00Z", labels := none,
             annotations := [(CacheSourceAnnotationKey, "member-a")],
             deletionTimestamp := none },
         spec := "null", status := "null" } : Document)).1 = indexNameOf podObj ∧
    (("kubernetes-pod", "u1") : String × String).1 = indexNameOf podObj :=
  ⟨c6_collection_naming.2.1 freshOS okBackend podObj,
    c6_collection_naming.2.2.1 freshOS okBackend podObj _ (by decide),
    c6_collection_naming.2.2.2.1 freshOS okBackend podObj _ (by decide)⟩

/-- An environment in which client construction and the connectivity
probe succeed and the secret store has nothing. -/
def env0 : InitEnv :=
  { secretData := fun _ _ => .error "secrets \x22opensearch\x22 not found"
    newClientErr := none
    infoErr := none }

/-- C8: constructing the store with a nil configuration, a nil
backend-specific section, or an empty address list yields an error and no
instance (the `Except.error` result models Go's `nil, err` return). -/
theorem c8_bad_config_never_constructs (cluster : String) (env : InitEnv)
    (cfg : Option BackendStoreConfig)
    (h : cfg = none ∨
      (∃ b, cfg = some b ∧ b.openSearch = none) ∨
      (∃ b osc, cfg = some b ∧ b.openSearch = some osc ∧ osc.addresses = [])) :
    ∃ e, NewOpenSearch cluster cfg env = .error e := by
  rcases h with rfl | ⟨b, rfl, hb⟩ | ⟨b, osc, rfl, hb, ha⟩
  · exact ⟨_, rfl⟩
  · have hi : initClient (some b) env = .error "opensearch config is nil" := by
      simp [initClient, hb]
    exact ⟨"cannot init client: opensearch config is nil",
      by simp [NewOpenSearch, hi]⟩
  · have hi : initClient (some b) env = .error "not found opensearch address" := by
      simp [initClient, hb, ha]
    exact ⟨"cannot init client: not found opensearch address",
      by simp [NewOpenSearch, hi]⟩

/-- A configuration whose backend-specific section is nil. -/
def nilSectionCfg : BackendStoreConfig := ⟨none⟩

/-- A configuration with an empty destination-address list. -/
def emptyAddrCfg : BackendStoreConfig := ⟨some ⟨[], ⟨"", ""⟩⟩⟩

/-- A well-formed configuration with one destination address. -/
def goodCfg : BackendStoreConfig := ⟨some ⟨["https://localhost:9200"], ⟨"", ""⟩⟩⟩

/-- C8 witness: the three bad configurations at concrete values. -/
theorem c8_witness :
    (∃ e, NewOpenSearch "member-a" none env0 = .error e) ∧
    (∃ e, NewOpenSearch "member-a" (some nilSectionCfg) env0 = .error e) ∧
    (∃ e, NewOpenSearch "member-a" (some emptyAddrCfg) env0 = .error e) :=
  ⟨c8_bad_config_never_constructs "member-a" env0 none (Or.inl rfl),
    c8_bad_config_never_constructs "member-a" env0 (some nilSectionCfg)
      (Or.inr (Or.inl ⟨nilSectionCfg, rfl, rfl⟩)),
    c8_bad_config_never_constructs "member-a" env0 (some emptyAddrCfg)
      (Or.inr (Or.inr ⟨emptyAddrCfg, ⟨[], ⟨"", ""⟩⟩, rfl, rfl, rfl⟩))⟩

/-! ## Heap model for the aliasing claim -/

/-- A heap of generic objects: references below `next` are allocated.
This makes the pointer aliasing of `*unstructured.Unstructured` explicit
so the deep-copy discipline can be stated. -/
structure Heap where
  data : Nat → Unstructured
  next : Nat

/-- `us.DeepCopy()`: allocate a fresh reference holding a copy of the
object at `r`; returns the fresh reference and the new heap. -/
def Heap.copyAt (h : Heap) (r : Nat) : Nat × Heap :=
  (h.next,
    { data := fun i => if i = h.next then h.data r else h.data i
      next := h.next + 1 })

/-- `us.SetAnnotations(m)`: in-place mutation of the object at `r`. -/
def Heap.setAnnsAt (h : Heap) (r : Nat) (m : StrMap) : Heap :=
  { h with data := fun i =>
      if i = r then { h.data i with annotations := some m } else h.data i }

/-- `OpenSearch.upsert`'s mutation prelude on an explicit heap: deep-copy
the caller's object, ensure an annotation map on the copy, inject the
provenance annotation into the copy. The rest of `upsert` only reads the
copy. Returns the heap after mutation and the copy's reference. -/
def OpenSearch.upsertOnHeap (os : OpenSearch) (h : Heap) (r : Nat) : Heap × Nat :=
  let rc := (h.copyAt r).1
  let h₁ := (h.copyAt r).2
  let u := h₁.data rc
  let anns := match u.getAnnotations with
    | none => ([] : StrMap)
    | some m => m
  let anns := mapSet anns CacheSourceAnnotationKey os.cluster
  (h₁.setAnnsAt rc anns, rc)

/-- C9: `upsert` never mutates the caller's object: for every allocated
reference, the object it holds — every field, in particular the
annotation map — is unchanged after the mutation prelude, because the
provenance injection happens on the fresh deep copy only. The copy does
receive the annotation, so the mutation is real. -/
theorem c9_upsert_does_not_mutate_caller (os : OpenSearch) (h : Heap)
    (r : Nat) (hr : r < h.next) :
    ((os.upsertOnHeap h r).1).data r = h.data r ∧
    (((os.upsertOnHeap h r).1).data ((os.upsertOnHeap h r).2)).annotations =
      some (mapSet
        (match (h.data r).getAnnotations with | none => [] | some m => m)
        CacheSourceAnnotationKey os.cluster) := by
  have hne : r ≠ h.next := Nat.ne_of_lt hr
  constructor
  · simp [OpenSearch.upsertOnHeap, Heap.copyAt, Heap.setAnnsAt, hne]
  · simp [OpenSearch.upsertOnHeap, Heap.copyAt, Heap.setAnnsAt]

/-- C9 witness: a one-object heap holding the `Pod` object. -/
theorem c9_witness :
    ((freshOS.upsertOnHeap { data := fun _ => podObj, next := 1 } 0).1).data 0 =
      ({ data := fun _ => podObj, next := 1 } : Heap).data 0 :=
  (c9_upsert_does_not_mutate_caller freshOS
    { data := fun _ => podObj, next := 1 } 0 (by decide)).1

/-- Helper: `indexName` never removes memo entries. -/
theorem indexName_indices_sub (os : OpenSearch) (backend : String → CreateResponse)
    (us : Unstructured) : os.indices ⊆ (os.indexName backend us).st.indices := by
  unfold OpenSearch.indexName
  by_cases hc : indexNameOf us ∈ os.indices
  · cases herr : (backend (indexNameOf us)).err with
    | none =>
        by_cases hie : (backend (indexNameOf us)).isError <;>
          simp [hc, herr, hie]
    | some e =>
        by_cases hsub : strContains e "already exists" = true <;>
          simp [hc, herr, hsub]
  · simp [hc]

/-- C10: the memo of known collections only grows: a freshly constructed
store has an empty memo, and `indexName`, `upsert` and `delete` each map
the memo to a superset of itself — no operation removes an entry. -/
theorem c10_memo_only_grows :
    (∀ (cluster : String) (cfg : Option BackendStoreConfig) (env : InitEnv)
        (os₀ : OpenSearch),
      NewOpenSearch cluster cfg env = .ok os₀ → os₀.indices = []) ∧
    (∀ (os : OpenSearch) (backend : String → CreateResponse) (us : Unstructured),
      os.indices ⊆ (os.indexName backend us).st.indices) ∧
    (∀ (os : OpenSearch) (backend : String → CreateResponse) (obj : EventObj),
      os.indices ⊆ (os.upsert backend obj).st.indices) ∧
    (∀ (os : OpenSearch) (backend : String → CreateResponse) (obj : EventObj),
      os.indices ⊆ (os.delete backend obj).st.indices) := by
  refine ⟨?_, indexName_indices_sub, ?_, ?_⟩
  · intro cluster cfg env os₀ h
    unfold NewOpenSearch at h
    cases hi : initClient cfg env <;> rw [hi] at h
    · cases h
    · cases h
      rfl
  · intro os backend obj
    cases obj with
    | other t => exact fun x hx => hx
    | us u =>
        unfold OpenSearch.upsert
        cases hh : (os.indexName backend
            { u with annotations := some (mapSet
                (match u.getAnnotations with | none => [] | some m => m)
                CacheSourceAnnotationKey os.cluster) }).err <;>
          simp [hh] <;> exact indexName_indices_sub os backend _
  · intro os backend obj
    cases obj with
    | other t => exact fun x hx => hx
    | us u =>
        unfold OpenSearch.delete
        cases hh : (os.indexName backend u).err <;>
          simp [hh] <;> exact indexName_indices_sub os backend u

/-- C10 witness: a successful construction at a concrete configuration
has an empty memo. -/
theorem c10_witness :
    ({ cluster := "member-a", indices := [] } : OpenSearch).indices = [] :=
  c10_memo_only_grows.1 "member-a" (some goodCfg) env0
    { cluster := "member-a", indices := [] } rfl

end Backendstore
